import Mathlib

/-!
Verification of the tidal prediction subsystem of the WeatherAPI repository.

The Python sources are shallowly embedded: machine floats are modelled by
exact rationals (the synthesizer formula, stated over the reals, is the one
exception), fallible code returns Except or Option, and the external pyTMD
library calls are abstracted as function parameters constrained only by the
interface contract stated in the spec.
-/

namespace WeatherAPI

/-! ## Configuration (src/app/config.py) -/

/-- Latitude of the fixed coastal point (config.py, LATITUDE). -/
def LATITUDE : ℚ := 28.4937

/-- Longitude of the fixed coastal point (config.py, LONGITUDE). -/
def LONGITUDE : ℚ := 34.5131

/-- Forecast horizon in hours (config.py, FORECAST_HOURS). -/
def FORECAST_HOURS : ℕ := 168

/-- Datum offset in centimeters (config.py, TIDE_DATUM_OFFSET_CM). -/
def TIDE_DATUM_OFFSET_CM : ℤ := 45

/-! ## Rounding

The conversion lines in tides.py (line 74) and tides_fes2022.py (line 100)
read: int(round(float(t) * 100)) + TIDE_DATUM_OFFSET_CM.  Python round with
one argument rounds to the nearest integer with ties going to the even
neighbour (banker rounding); int() on that result is the identity. -/

/-- Embedding of Python round on an exact value: nearest integer, ties to
the even neighbour. -/
def pyRound (x : ℚ) : ℤ :=
  let f := ⌊x⌋
  let r := x - f
  if r < 1/2 then f
  else if 1/2 < r then f + 1
  else if 2 ∣ f then f else f + 1

/-- Rounding half away from zero, written from the words of the spec
(section 4.5 step 4) for comparison with the rounding the code performs. -/
def roundHalfAwayFromZero (x : ℚ) : ℤ :=
  if 0 ≤ x then ⌊x + 1/2⌋ else -⌊-x + 1/2⌋

/-- One entry of the centimeter conversion: tides.py line 74 and
tides_fes2022.py line 100, for a single synthesized height in meters. -/
def heightToCm (offset : ℤ) (h : ℚ) : ℤ := pyRound (h * 100) + offset

/-- The full centimeter conversion list comprehension. -/
def tideCmOfHeights (hs : List ℚ) (offset : ℤ) : List ℤ :=
  hs.map (heightToCm offset)

/-! ## Timestamp construction

tides.py lines 45-54: seconds since 2000-01-01 floored to a multiple of
3600 (Python floor division), then n hourly steps.
tides_fes2022.py lines 71-79: days since 1992-01-01 floored to a multiple
of 1/24, then n steps of 1/24 day. -/

/-- tides.py line 49: (base_seconds // 3600) * 3600. -/
def gotBase (nowSec : ℚ) : ℚ := (⌊nowSec / 3600⌋ : ℚ) * 3600

/-- tides.py lines 51-54: the hourly time array of the GOT4.10 path,
in seconds since the 2000-01-01 epoch. -/
def gotTimestamps (nowSec : ℚ) : List ℚ :=
  (List.range FORECAST_HOURS).map
    (fun i : ℕ => gotBase nowSec + (i : ℚ) * 3600)

/-- tides_fes2022.py line 74: (base_days // (1/24)) * (1/24). -/
def fesBase (nowDays : ℚ) : ℚ := (⌊nowDays / (1/24 : ℚ)⌋ : ℚ) * (1/24)

/-- tides_fes2022.py line 79: the hourly time array of the FES2022 path,
in days since the 1992-01-01 epoch. -/
def fesTimestamps (nowDays : ℚ) : List ℚ :=
  (List.range FORECAST_HOURS).map
    (fun i : ℕ => fesBase nowDays + (i : ℚ) / 24)

/-! ## The persisted constants record (dahab_constants.json) -/

/-- The structured record written by extract_fes2022_constants.py and read
by tides_fes2022.py: latitude, longitude, and three parallel lists. -/
structure ConstantsRecord where
  latitude : ℚ
  longitude : ℚ
  constituents : List String
  amplitude : List ℚ
  phase : List ℚ
deriving DecidableEq

/-- Failure conditions arising inside a prediction attempt; every one is
caught by the catch-all handler of the enclosing try block. -/
inductive TideError
  | broadcastMismatch
  | predictFailed
deriving DecidableEq

/-! ## The FES2022 cached-constants path (src/app/tides_fes2022.py)

Line 86 computes hc_single = amp * np.exp(1j * ph_rad) where amp and
ph_rad are one-dimensional numpy arrays.  Numpy multiplies arrays of equal
length elementwise, silently broadcasts an array of length one against the
other operand, and raises a ValueError for any other length combination.
We keep each complex coefficient as its (amplitude, phase) data, a
bijective encoding consumed only by the abstract synthesizer parameter. -/

/-- Numpy one-dimensional broadcasting of the elementwise combination of
the amplitude and phase arrays (tides_fes2022.py line 86). -/
def broadcastPairs (a b : List ℚ) : Except TideError (List (ℚ × ℚ)) :=
  if a.length = b.length then .ok (a.zip b)
  else if a.length = 1 then .ok (b.map (fun y => (a.headD 0, y)))
  else if b.length = 1 then .ok (a.map (fun x => (x, b.headD 0)))
  else .error .broadcastMismatch

/-- Interface type of the external pyTMD.predict.drift call: time array,
harmonic coefficients, constituent names; may fail, else one height in
meters per time point. -/
def SynthFn : Type :=
  List ℚ → List (ℚ × ℚ) → List String → Except TideError (List ℚ)

/-- Body of the try block of compute_tides_fes2022 (lines 57-109), given a
loaded record: build the coefficient array, build the time array, call the
external synthesizer, convert to centimeters. -/
def fesBody (nowDays : ℚ) (rec : ConstantsRecord) (drift : SynthFn) :
    Except TideError (List ℤ) := do
  let hcs ← broadcastPairs rec.amplitude rec.phase
  let ts := fesTimestamps nowDays
  let hs ← drift ts hcs rec.constituents
  pure (tideCmOfHeights hs TIDE_DATUM_OFFSET_CM)

/-- compute_tides_fes2022: the loaded record is None when the constants
cache file does not exist (_load_constants lines 34-37), and the catch-all
except clause (lines 111-113) turns every internal failure into None. -/
def compute_tides_fes2022 (nowDays : ℚ) (record : Option ConstantsRecord)
    (drift : SynthFn) : Option (List ℤ) :=
  match record with
  | none => none
  | some rec => (fesBody nowDays rec drift).toOption

/-! ## The GOT4.10 path (src/app/tides.py lines 35-86) -/

/-- Interface type of the external pyTMD.compute_tide_corrections call at
the fixed location: time array in, one height in meters per time point
out, or a failure. -/
def GotPredictFn : Type := List ℚ → Except TideError (List ℚ)

/-- Body of the try block of _compute_tides_got410 followed by the
catch-all except clause (lines 84-86) that turns failures into None. -/
def compute_tides_got410 (nowSec : ℚ) (predict : GotPredictFn) :
    Option (List ℤ) :=
  (do
    let ts := gotTimestamps nowSec
    let hs ← predict ts
    pure (tideCmOfHeights hs TIDE_DATUM_OFFSET_CM)).toOption

/-! ## The dispatcher (src/app/tides.py lines 19-32) -/

/-- compute_tides: selects the FES2022 path exactly when the configured
model name equals the string FES2022, the GOT4.10 path otherwise. -/
def compute_tides (modelName : String) (nowDays nowSec : ℚ)
    (record : Option ConstantsRecord) (drift : SynthFn)
    (predict : GotPredictFn) : Option (List ℤ) :=
  if modelName = "FES2022" then compute_tides_fes2022 nowDays record drift
  else compute_tides_got410 nowSec predict

/-! ## The extraction job (src/extract_fes2022_constants.py) -/

/-- The FES2022 constituent catalog (extract_fes2022_constants.py
lines 18-23). -/
def CONSTITUENTS : List String :=
  ["2n2", "eps2", "j1", "k1", "k2", "l2", "lambda2", "m2", "m3", "m4",
   "m6", "m8", "mf", "mks2", "mm", "mn4", "ms4", "msf", "msqm", "mtm",
   "mu2", "n2", "n4", "nu2", "o1", "p1", "q1", "r2", "s1", "s2", "s4",
   "sa", "ssa", "t2"]

/-- What the grid model source yields for one constituent when the
extraction loop queries it: the model file is absent (line 51), the
pyTMD extraction raises (line 81), or it returns a value whose amplitude
or phase component may be masked (none, lines 72-73). -/
inductive GridOutcome
  | fileMissing
  | raised
  | value (a : Option ℚ) (p : Option ℚ)
deriving DecidableEq

/-- A constituent is appended to the record exactly when its file exists
and pyTMD.io.FES.extract_constants returns without raising. -/
def keepsConstituent : GridOutcome → Bool
  | .fileMissing => false
  | .raised => false
  | .value _ _ => true

/-- Line 72: a = float(amp) if not masked else 0.0. -/
def outcomeAmp : GridOutcome → ℚ
  | .value a _ => a.getD 0
  | _ => 0

/-- Line 73: p = float(ph) if not masked else 0.0. -/
def outcomePhase : GridOutcome → ℚ
  | .value _ p => p.getD 0
  | _ => 0

/-- The extraction loop (lines 49-82): for each constituent, in catalog
order, either skip it or append its name, amplitude and phase to the
three result lists together. -/
def extractLoop (env : String → GridOutcome) :
    List String → List String × List ℚ × List ℚ
  | [] => ([], [], [])
  | c :: rest =>
    let r := extractLoop env rest
    match env c with
    | .fileMissing => r
    | .raised => r
    | .value a p => (c :: r.1, a.getD 0 :: r.2.1, p.getD 0 :: r.2.2)

/-- extract_constants (lines 29-98): runs the loop over the catalog and
assembles the record that is then serialized to dahab_constants.json. -/
def extract_constants (env : String → GridOutcome) : ConstantsRecord :=
  let r := extractLoop env CONSTITUENTS
  { latitude := LATITUDE, longitude := LONGITUDE,
    constituents := r.1, amplitude := r.2.1, phase := r.2.2 }

/-! ## On-disk write behaviour

A small filesystem model shared by the two writers: the state holds the
content of the written-to file and of an auxiliary temporary file.  A
serialized document is written as a list of chunks, and a write attempt
may fail after any number of chunks. -/

/-- Content of the destination file and of the temporary file. -/
structure FS where
  target : Option String
  temp : Option String
deriving DecidableEq

/-- The chunks actually written when the dump fails after k chunks, or
completes (none). -/
def writtenChunks (chunks : List String) : Option ℕ → List String
  | none => chunks
  | some k => chunks.take k

/-- extract_fes2022_constants.py lines 85-87: open(CACHE_FILE, "w")
truncates the destination in place, then json.dump writes into it; a
failure after k chunks leaves that prefix on disk. -/
def extractSave (fs : FS) (chunks : List String) (failAfter : Option ℕ) :
    FS :=
  { target := some (String.join (writtenChunks chunks failAfter)),
    temp := fs.temp }

/-- The observable filesystem states during the in-place write of the
constants record: after the truncating open and after each chunk. -/
def extractSaveStates (fs : FS) (chunks : List String) : List FS :=
  (List.range (chunks.length + 1)).map
    (fun k => { target := some (String.join (chunks.take k)),
                temp := fs.temp })

/-- app/cache.py lines 42-51: mkstemp creates a temporary file, json.dump
writes into it, os.replace atomically renames it over the cache file; on
a dump failure the temporary file is unlinked and the destination is
untouched. -/
def cacheSave (fs : FS) (chunks : List String) (failAfter : Option ℕ) :
    FS :=
  match failAfter with
  | none => { target := some (String.join chunks), temp := none }
  | some _ => { target := fs.target, temp := none }

/-- The observable filesystem states during a cache save: after mkstemp,
after each chunk written to the temporary file, and after the rename. -/
def cacheSaveStates (fs : FS) (chunks : List String) : List FS :=
  ((List.range (chunks.length + 1)).map
    (fun k => { target := fs.target,
                temp := some (String.join (chunks.take k)) }))
  ++ [{ target := some (String.join chunks), temp := none }]

/-! ## The harmonic synthesis formula -/

/-- Modelled from the spec: the HarmonicSynthesizer accumulation of
section 4.4, implemented outside this repository by the pyTMD library.
Each term is (nodal factor f, amplitude A, combined argument V0 + u,
phase), angles in radians, and the height at one timestamp is the sum
of f * A * cos(arg - phase) over the constituents. -/
noncomputable def synthesizeSpecHeight (terms : List (ℝ × ℝ × ℝ × ℝ)) :
    ℝ :=
  (terms.map (fun q => q.1 * q.2.1 * Real.cos (q.2.2.1 - q.2.2.2))).sum

/-! ## Helper lemmas -/

/-- Floor division times the divisor bounds the dividend from below and
misses it by less than the divisor. -/
lemma floor_div_mul_bounds (x c : ℚ) (hc : 0 < c) :
    (⌊x / c⌋ : ℚ) * c ≤ x ∧ x < (⌊x / c⌋ : ℚ) * c + c := by
  constructor
  · have h1 : (⌊x / c⌋ : ℚ) ≤ x / c := Int.floor_le (x / c)
    have := mul_le_mul_of_nonneg_right h1 (le_of_lt hc)
    rwa [div_mul_cancel₀ x (ne_of_gt hc)] at this
  · have h2 : x / c < (⌊x / c⌋ : ℚ) + 1 := Int.lt_floor_add_one (x / c)
    have := mul_lt_mul_of_pos_right h2 hc
    rw [div_mul_cancel₀ x (ne_of_gt hc)] at this
    linarith

/-- Indexing a mapped range with a default. -/
lemma getD_map_range (n : ℕ) (f : ℕ → ℚ) (i : ℕ) (h : i < n) (d : ℚ) :
    ((List.range n).map f).getD i d = f i := by
  rw [List.getD_eq_getElem?_getD, List.getElem?_map,
    List.getElem?_range h]
  rfl

/-- The centimeter conversion preserves the number of entries. -/
lemma tideCmOfHeights_length (hs : List ℚ) (offset : ℤ) :
    (tideCmOfHeights hs offset).length = hs.length := by
  simp [tideCmOfHeights]

/-- Entrywise view of the centimeter conversion. -/
lemma tideCmOfHeights_getD (hs : List ℚ) (offset : ℤ) (i : ℕ)
    (h : i < hs.length) (d : ℤ) (e : ℚ) :
    (tideCmOfHeights hs offset).getD i d = heightToCm offset (hs.getD i e) := by
  rw [tideCmOfHeights, List.getD_eq_getElem?_getD, List.getElem?_map,
    List.getD_eq_getElem?_getD, List.getElem?_eq_getElem h]
  rfl

/-- The extraction loop keeps exactly the constituents whose grid outcome
is a value, in order, and records their amplitude and phase in parallel. -/
lemma extractLoop_eq (env : String → GridOutcome) (l : List String) :
    extractLoop env l =
      (l.filter (fun c => keepsConstituent (env c)),
       (l.filter (fun c => keepsConstituent (env c))).map
         (fun c => outcomeAmp (env c)),
       (l.filter (fun c => keepsConstituent (env c))).map
         (fun c => outcomePhase (env c))) := by
  induction l with
  | nil => rfl
  | cons c rest ih =>
    cases h : env c <;>
      simp [extractLoop, ih, List.filter_cons, h, keepsConstituent,
        outcomeAmp, outcomePhase]

/-- Indexing a mapped list with a default, inside the bound. -/
lemma getD_map_of_lt {α β : Type} (l : List α) (f : α → β) (i : ℕ)
    (h : i < l.length) (d : β) (e : α) :
    (l.map f).getD i d = f (l.getD i e) := by
  rw [List.getD_eq_getElem?_getD, List.getElem?_map,
    List.getD_eq_getElem?_getD, List.getElem?_eq_getElem h]
  rfl

/-- Filtering out at least one element shortens the list strictly. -/
lemma length_filter_lt_of_mem_false {α : Type} (p : α → Bool) (l : List α)
    (c : α) (hc : c ∈ l) (hp : p c = false) :
    (l.filter p).length < l.length := by
  induction l with
  | nil => cases hc
  | cons a rest ih =>
    rcases List.mem_cons.mp hc with rfl | hmem
    · simp only [List.filter_cons, hp, Bool.false_eq_true, if_false]
      exact Nat.lt_succ_of_le (List.length_filter_le p rest)
    · cases hpa : p a
      · simp only [List.filter_cons, hpa, Bool.false_eq_true, if_false]
        exact Nat.lt_succ_of_le (List.length_filter_le p rest)
      · simp only [List.filter_cons, hpa, if_true, List.length_cons]
        exact Nat.succ_lt_succ (ih hmem)

/-- A successful GOT4.10 computation is the converted output of the
external predictor on the hourly time array. -/
lemma got410_some_elim (nowSec : ℚ) (pf : GotPredictFn) (l : List ℤ)
    (hl : compute_tides_got410 nowSec pf = some l) :
    ∃ hs, pf (gotTimestamps nowSec) = .ok hs ∧
      l = tideCmOfHeights hs TIDE_DATUM_OFFSET_CM := by
  unfold compute_tides_got410 at hl
  cases h : pf (gotTimestamps nowSec) with
  | error e =>
    simp [h, Bind.bind, Except.bind, Except.toOption] at hl
  | ok hs =>
    simp only [h, Bind.bind, Except.bind, pure, Except.pure,
      Except.toOption, Option.some.injEq] at hl
    exact ⟨hs, rfl, hl.symm⟩

/-- A successful FES2022 computation comes from a loaded record, a
successful broadcast and a successful synthesizer call on the hourly time
array. -/
lemma fes2022_some_elim (nowDays : ℚ) (record : Option ConstantsRecord)
    (drift : SynthFn) (l : List ℤ)
    (hl : compute_tides_fes2022 nowDays record drift = some l) :
    ∃ rec hcs hs, record = some rec ∧
      broadcastPairs rec.amplitude rec.phase = .ok hcs ∧
      drift (fesTimestamps nowDays) hcs rec.constituents = .ok hs ∧
      l = tideCmOfHeights hs TIDE_DATUM_OFFSET_CM := by
  cases record with
  | none => simp [compute_tides_fes2022] at hl
  | some rec =>
    unfold compute_tides_fes2022 fesBody at hl
    cases hb : broadcastPairs rec.amplitude rec.phase with
    | error e =>
      simp [hb, Bind.bind, Except.bind, Except.toOption] at hl
    | ok hcs =>
      cases hd : drift (fesTimestamps nowDays) hcs rec.constituents with
      | error e =>
        simp [hb, hd, Bind.bind, Except.bind, Except.toOption] at hl
      | ok hs =>
        simp only [hb, hd, Bind.bind, Except.bind, pure, Except.pure,
          Except.toOption, Option.some.injEq] at hl
        exact ⟨rec, hcs, hs, rfl, hb, hd, hl.symm⟩

/-! ## Claims -/

/-- C1: the configured horizon is 168 hours; in both the GOT4.10 path and
the FES2022 cached-constants path the implicit timestamps start at the
current time floored down to the hour boundary (a multiple of one hour, at
most the current time, missing it by less than an hour), increase by
exactly one hour per entry, and every successful prediction call returns
exactly FORECAST_HOURS values. -/
theorem c1_horizon_and_hourly_grid :
    FORECAST_HOURS = 168 ∧
    ∀ nowSec nowDays : ℚ,
      (gotTimestamps nowSec).length = FORECAST_HOURS ∧
      (fesTimestamps nowDays).length = FORECAST_HOURS ∧
      (∃ k : ℤ, gotBase nowSec = (k : ℚ) * 3600) ∧
      gotBase nowSec ≤ nowSec ∧ nowSec < gotBase nowSec + 3600 ∧
      (∃ k : ℤ, fesBase nowDays = (k : ℚ) * (1 / 24)) ∧
      fesBase nowDays ≤ nowDays ∧ nowDays < fesBase nowDays + 1 / 24 ∧
      (gotTimestamps nowSec).getD 0 0 = gotBase nowSec ∧
      (fesTimestamps nowDays).getD 0 0 = fesBase nowDays ∧
      (∀ i, i + 1 < FORECAST_HOURS →
        (gotTimestamps nowSec).getD (i + 1) 0 -
          (gotTimestamps nowSec).getD i 0 = 3600) ∧
      (∀ i, i + 1 < FORECAST_HOURS →
        (fesTimestamps nowDays).getD (i + 1) 0 -
          (fesTimestamps nowDays).getD i 0 = 1 / 24) ∧
      (∀ pf : GotPredictFn,
        (∀ ts hs, pf ts = .ok hs → hs.length = ts.length) →
        ∀ l, compute_tides_got410 nowSec pf = some l →
          l.length = FORECAST_HOURS) ∧
      (∀ record drift,
        (∀ ts hcs cs hs, drift ts hcs cs = .ok hs → hs.length = ts.length) →
        ∀ l, compute_tides_fes2022 nowDays record drift = some l →
          l.length = FORECAST_HOURS) := by
  refine ⟨rfl, fun nowSec nowDays => ?_⟩
  have h3600 : (0 : ℚ) < 3600 := by norm_num
  have h24 : (0 : ℚ) < 1 / 24 := by norm_num
  refine ⟨by simp [gotTimestamps], by simp [fesTimestamps],
    ⟨⌊nowSec / 3600⌋, rfl⟩,
    (floor_div_mul_bounds nowSec 3600 h3600).1,
    (floor_div_mul_bounds nowSec 3600 h3600).2,
    ⟨⌊nowDays / (1 / 24 : ℚ)⌋, rfl⟩,
    (floor_div_mul_bounds nowDays (1 / 24) h24).1,
    (floor_div_mul_bounds nowDays (1 / 24) h24).2,
    ?_, ?_, ?_, ?_, ?_, ?_⟩
  · rw [gotTimestamps, getD_map_range _ _ _ (by decide)]
    norm_num
  · rw [fesTimestamps, getD_map_range _ _ _ (by decide)]
    norm_num
  · intro i hi
    rw [gotTimestamps, getD_map_range _ _ _ hi,
      getD_map_range _ _ _ (Nat.lt_of_succ_lt hi)]
    push_cast
    ring
  · intro i hi
    rw [fesTimestamps, getD_map_range _ _ _ hi,
      getD_map_range _ _ _ (Nat.lt_of_succ_lt hi)]
    push_cast
    ring
  · intro pf hpf l hl
    obtain ⟨hs, hok, hval⟩ := got410_some_elim nowSec pf l hl
    rw [hval, tideCmOfHeights_length, hpf _ _ hok]
    simp [gotTimestamps]
  · intro record drift hdrift l hl
    obtain ⟨rec, hcs, hs, -, -, hok, hval⟩ :=
      fes2022_some_elim nowDays record drift l hl
    rw [hval, tideCmOfHeights_length, hdrift _ _ _ _ hok]
    simp [fesTimestamps]

/-- Witness for C1 at a concrete current time and a concrete conforming
external predictor. -/
theorem c1_horizon_and_hourly_grid_witness :
    (gotTimestamps 7200.5).getD 1 0 - (gotTimestamps 7200.5).getD 0 0 =
      3600 ∧
    (fesTimestamps (1 / 2)).getD 1 0 - (fesTimestamps (1 / 2)).getD 0 0 =
      1 / 24 ∧
    (List.replicate 168 (45 : ℤ)).length = FORECAST_HOURS := by
  obtain ⟨-, h⟩ := c1_horizon_and_hourly_grid
  obtain ⟨-, -, -, -, -, -, -, -, -, -, hgotsp, hfessp, hgotlen, -⟩ :=
    h 7200.5 (1 / 2)
  have hconst : heightToCm TIDE_DATUM_OFFSET_CM 0 = 45 := by
    norm_num [heightToCm, pyRound, TIDE_DATUM_OFFSET_CM]
  have hcomp : compute_tides_got410 7200.5
      (fun ts => .ok (ts.map (fun _ => (0 : ℚ)))) =
      some (List.replicate 168 (45 : ℤ)) := by
    unfold compute_tides_got410
    simp only [Bind.bind, Except.bind, pure, Except.pure, Except.toOption,
      Option.some.injEq]
    rw [tideCmOfHeights, List.map_map]
    have hfun : (heightToCm TIDE_DATUM_OFFSET_CM ∘ fun _ : ℚ => (0 : ℚ)) =
        fun _ : ℚ => (45 : ℤ) := by
      funext x
      simpa [Function.comp] using hconst
    rw [hfun, List.map_const']
    congr 1
  exact ⟨hgotsp 0 (by decide), hfessp 0 (by decide),
    hgotlen (fun ts => .ok (ts.map (fun _ => (0 : ℚ))))
      (by intro ts hs hok; cases hok; simp)
      (List.replicate 168 (45 : ℤ)) hcomp⟩

/-- C2 counterexample: at a synthesized height of 0.025 m the conversion
line computes Python round of 2.5, which is 2 (ties go to the even
neighbour), so the entry is 47; rounding half away from zero would give
3 and an entry of 48.  The claimed identity fails at this height. -/
theorem c2_round_half_away_counterexample :
    heightToCm TIDE_DATUM_OFFSET_CM (1 / 40) = 47 ∧
    roundHalfAwayFromZero ((1 / 40 : ℚ) * 100) + TIDE_DATUM_OFFSET_CM = 48 ∧
    ¬ heightToCm TIDE_DATUM_OFFSET_CM (1 / 40) =
        roundHalfAwayFromZero ((1 / 40 : ℚ) * 100) + TIDE_DATUM_OFFSET_CM := by
  have h1 : heightToCm TIDE_DATUM_OFFSET_CM (1 / 40) = 47 := by
    norm_num [heightToCm, pyRound, TIDE_DATUM_OFFSET_CM]
  have h2 : roundHalfAwayFromZero ((1 / 40 : ℚ) * 100) +
      TIDE_DATUM_OFFSET_CM = 48 := by
    norm_num [roundHalfAwayFromZero, TIDE_DATUM_OFFSET_CM]
  exact ⟨h1, h2, by rw [h1, h2]; decide⟩

/-- C2 amended: each entry of the returned series is Python round (nearest
integer, ties to the even neighbour) of the height times 100, plus the
datum offset; the rounded value is within half a centimeter of the scaled
height and an exact tie lands on an even integer.  The unit round-trip of
the spec holds: one constituent of amplitude 0.30 m and phase 0 at a
combined argument of 0 synthesizes 0.30 m, the pre-offset entry is 30 cm,
and with offset 45 the final entry is 75. -/
theorem c2_rounding_amended :
    (∀ (hs : List ℚ) (offset : ℤ) (i : ℕ), i < hs.length →
      (tideCmOfHeights hs offset).getD i 0 =
        pyRound (hs.getD i 0 * 100) + offset) ∧
    (∀ x : ℚ, |(pyRound x : ℚ) - x| ≤ 1 / 2) ∧
    (∀ x : ℚ, |(pyRound x : ℚ) - x| = 1 / 2 → 2 ∣ pyRound x) ∧
    synthesizeSpecHeight [(1, 3 / 10, 0, 0)] = 3 / 10 ∧
    heightToCm 0 (3 / 10) = 30 ∧
    heightToCm TIDE_DATUM_OFFSET_CM (3 / 10) = 75 := by
  have hfl : ∀ x : ℚ, (⌊x⌋ : ℚ) ≤ x ∧ x < ⌊x⌋ + 1 :=
    fun x => ⟨Int.floor_le x, Int.lt_floor_add_one x⟩
  refine ⟨?_, ?_, ?_, ?_, ?_, ?_⟩
  · intro hs offset i hi
    rw [tideCmOfHeights_getD hs offset i hi 0 0]
    rfl
  · intro x
    obtain ⟨h0, h1⟩ := hfl x
    rw [abs_le]
    simp only [pyRound]
    split_ifs with hlt hgt hev <;> push_cast <;>
      exact ⟨by linarith, by linarith⟩
  · intro x hx
    obtain ⟨h0, h1⟩ := hfl x
    simp only [pyRound] at hx ⊢
    split_ifs at hx ⊢ with hlt hgt hev
    · exfalso
      rw [abs_sub_comm, abs_of_nonneg (by linarith)] at hx
      linarith
    · exfalso
      rw [abs_of_nonneg (by push_cast; linarith)] at hx
      push_cast at hx
      linarith
    · exact hev
    · omega
  · simp [synthesizeSpecHeight]
  · norm_num [heightToCm, pyRound]
  · norm_num [heightToCm, pyRound, TIDE_DATUM_OFFSET_CM]

/-- Witness for C2 amended, at the height 0.25 m with offset 45 and at the
tie point 2.5. -/
theorem c2_rounding_amended_witness :
    (tideCmOfHeights [1 / 4] 45).getD 0 0 =
      pyRound ((1 / 4 : ℚ) * 100) + 45 ∧
    2 ∣ pyRound (5 / 2 : ℚ) := by
  obtain ⟨h1, -, h3, -, -, -⟩ := c2_rounding_amended
  have hp : pyRound (5 / 2 : ℚ) = 2 := by norm_num [pyRound]
  have habs : |(pyRound (5 / 2 : ℚ) : ℚ) - 5 / 2| = 1 / 2 := by
    rw [hp]
    norm_num [abs]
  have hlen : 0 < ([1 / 4] : List ℚ).length := by decide
  exact ⟨by simpa using h1 [1 / 4] 45 0 hlen, h3 (5 / 2) habs⟩

/-- C3: if two runs see the same synthesized meter heights, the run with
datum offset X minus the run with offset 0 equals exactly X at every
index, because the offset is added after the integer rounding. -/
theorem c3_datum_linearity :
    ∀ (hs : List ℚ) (X : ℤ) (t : ℕ), t < hs.length →
      (tideCmOfHeights hs X).getD t 0 - (tideCmOfHeights hs 0).getD t 0 =
        X := by
  intro hs X t ht
  rw [tideCmOfHeights_getD hs X t ht 0 0, tideCmOfHeights_getD hs 0 t ht 0 0]
  simp [heightToCm]

/-- Witness for C3 at concrete heights, offset and index. -/
theorem c3_datum_linearity_witness :
    (tideCmOfHeights [1 / 4, 7] (-3)).getD 1 0 -
      (tideCmOfHeights [1 / 4, 7] 0).getD 1 0 = -3 :=
  c3_datum_linearity [1 / 4, 7] (-3) 1 (by decide)

/-- C4: the FES2022 cached-constants path returns None when the persisted
constants record is absent, and every whole-resource failure inside
either prediction path (a failing body of the FES2022 path, a failing
external predictor in the GOT4.10 path) is absorbed to the None outcome
instead of escaping. -/
theorem c4_unavailable_never_raises :
    (∀ (nowDays : ℚ) (drift : SynthFn),
      compute_tides_fes2022 nowDays none drift = none) ∧
    (∀ (nowDays : ℚ) (rec : ConstantsRecord) (drift : SynthFn)
      (e : TideError), fesBody nowDays rec drift = .error e →
      compute_tides_fes2022 nowDays (some rec) drift = none) ∧
    (∀ (nowSec : ℚ) (predict : GotPredictFn) (e : TideError),
      predict (gotTimestamps nowSec) = .error e →
      compute_tides_got410 nowSec predict = none) := by
  refine ⟨fun nowDays drift => rfl,
    fun nowDays rec drift e he => ?_,
    fun nowSec predict e he => ?_⟩
  · simp [compute_tides_fes2022, he, Except.toOption]
  · simp [compute_tides_got410, he, Bind.bind, Except.bind,
      Except.toOption]

/-- Witness for C4: a missing record, a record whose processing fails at
the broadcast step, and a GOT4.10 run whose external predictor fails. -/
theorem c4_unavailable_never_raises_witness :
    compute_tides_fes2022 0 none (fun _ _ _ => .error .predictFailed) =
      none ∧
    compute_tides_fes2022 0
      (some (ConstantsRecord.mk LATITUDE LONGITUDE ["m2"] [] [1, 2]))
      (fun _ _ _ => .error .predictFailed) = none ∧
    compute_tides_got410 0 (fun _ => .error .predictFailed) = none := by
  refine ⟨c4_unavailable_never_raises.1 0 _,
    c4_unavailable_never_raises.2.1 0 _ _ .broadcastMismatch rfl,
    c4_unavailable_never_raises.2.2 0 _ .predictFailed rfl⟩

/-- C9: the dispatcher selects the FES2022 cached-constants path exactly
when the configured model name equals the string FES2022 and the GOT4.10
path for every other name, so every name resolves to one of the two paths
and no unknown-model failure exists at the public interface. -/
theorem c9_dispatch_on_model_name :
    ∀ (modelName : String) (nowDays nowSec : ℚ)
      (record : Option ConstantsRecord) (drift : SynthFn)
      (predict : GotPredictFn),
      (modelName = "FES2022" →
        compute_tides modelName nowDays nowSec record drift predict =
          compute_tides_fes2022 nowDays record drift) ∧
      (modelName ≠ "FES2022" →
        compute_tides modelName nowDays nowSec record drift predict =
          compute_tides_got410 nowSec predict) ∧
      (compute_tides modelName nowDays nowSec record drift predict =
          compute_tides_fes2022 nowDays record drift ∨
        compute_tides modelName nowDays nowSec record drift predict =
          compute_tides_got410 nowSec predict) := by
  intro modelName nowDays nowSec record drift predict
  by_cases h : modelName = "FES2022" <;> simp [compute_tides, h]

/-- Witness for C9 at the two configured names and an unrecognized one. -/
theorem c9_dispatch_on_model_name_witness :
    compute_tides "FES2022" 0 0 none (fun _ _ _ => .error .predictFailed)
        (fun _ => .error .predictFailed) =
      compute_tides_fes2022 0 none (fun _ _ _ => .error .predictFailed) ∧
    compute_tides "GOT4.10" 0 0 none (fun _ _ _ => .error .predictFailed)
        (fun _ => .error .predictFailed) =
      compute_tides_got410 0 (fun _ => .error .predictFailed) ∧
    compute_tides "NOSUCHMODEL" 0 0 none
        (fun _ _ _ => .error .predictFailed)
        (fun _ => .error .predictFailed) =
      compute_tides_got410 0 (fun _ => .error .predictFailed) := by
  refine ⟨(c9_dispatch_on_model_name "FES2022" 0 0 none _ _).1 rfl,
    (c9_dispatch_on_model_name "GOT4.10" 0 0 none _ _).2.1 (by decide),
    (c9_dispatch_on_model_name "NOSUCHMODEL" 0 0 none _ _).2.1 (by decide)⟩

/-- C7 counterexample: the consuming path performs no explicit equal
length validation.  A record whose amplitude list has length 2 and whose
phase list has length 1 fails the equal-length check, yet numpy
broadcasting silently pairs the single phase with both amplitudes and the
call returns a result computed from the mismatched arrays instead of
None. -/
theorem c7_no_length_validation_counterexample :
    ([3 / 10, 1 / 5] : List ℚ).length ≠ ([0] : List ℚ).length ∧
    broadcastPairs [3 / 10, 1 / 5] [(0 : ℚ)] =
      .ok [(3 / 10, 0), (1 / 5, 0)] ∧
    compute_tides_fes2022 0
      (some (ConstantsRecord.mk LATITUDE LONGITUDE ["m2", "s2"]
        [3 / 10, 1 / 5] [0]))
      (fun ts _ _ => .ok (ts.map (fun _ => 0))) ≠ none := by
  refine ⟨by decide, rfl, ?_⟩
  have hb : broadcastPairs [3 / 10, 1 / 5] [(0 : ℚ)] =
      .ok [(3 / 10, 0), (1 / 5, 0)] := rfl
  simp only [compute_tides_fes2022, fesBody, hb, Bind.bind, Except.bind,
    pure, Except.pure, Except.toOption]
  exact Option.some_ne_none _

/-- C7 amended: there is no explicit length check before use; instead a
record whose amplitude and phase lists have different lengths, neither
being 1, makes the numpy broadcast raise, and the catch-all handler turns
that into the None outcome; if one of the two lists has length 1 it is
silently broadcast and a result is produced from the mismatched arrays. -/
theorem c7_length_mismatch_amended :
    ∀ (nowDays : ℚ) (rec : ConstantsRecord) (drift : SynthFn),
      rec.amplitude.length ≠ rec.phase.length →
      rec.amplitude.length ≠ 1 → rec.phase.length ≠ 1 →
      compute_tides_fes2022 nowDays (some rec) drift = none := by
  intro nowDays rec drift hne ha hp
  have hb : broadcastPairs rec.amplitude rec.phase =
      .error .broadcastMismatch := by
    simp [broadcastPairs, hne, ha, hp]
  simp [compute_tides_fes2022, fesBody, hb, Bind.bind, Except.bind,
    Except.toOption]

/-- Witness for C7 amended at a record with 0 amplitudes and 2 phases. -/
theorem c7_length_mismatch_amended_witness :
    compute_tides_fes2022 0
      (some (ConstantsRecord.mk LATITUDE LONGITUDE ["m2"] [] [1, 2]))
      (fun ts _ _ => .ok (ts.map (fun _ => 0))) = none :=
  c7_length_mismatch_amended 0 _ _ (by decide) (by decide) (by decide)

/-- C5 counterexample: a constituent whose interpolation is masked
(Unresolved) is not omitted from the record.  With every constituent
resolving and m2 masked in both components, the record still has the full
catalog length and still contains m2 (with zero amplitude and phase). -/
theorem c5_masked_not_omitted_counterexample :
    (extract_constants (fun c => if c = "m2" then GridOutcome.value none none
      else GridOutcome.value (some 1) (some 0))).constituents.length =
      CONSTITUENTS.length ∧
    "m2" ∈ (extract_constants (fun c => if c = "m2" then
      GridOutcome.value none none
      else GridOutcome.value (some 1) (some 0))).constituents := by
  constructor <;> decide

/-- C5 amended: a constituent whose model file is absent, or whose
extraction raises, is omitted from the record, making the record strictly
shorter than the catalog while extraction still completes with the
remaining constituents; a masked (Unresolved) interpolation is instead
recorded with amplitude 0 and phase 0. -/
theorem c5_partial_extraction_amended :
    ∀ env : String → GridOutcome,
      (extract_constants env).constituents =
        CONSTITUENTS.filter (fun c => keepsConstituent (env c)) ∧
      ∀ c, c ∈ CONSTITUENTS →
        ((env c = .fileMissing ∨ env c = .raised) →
          c ∉ (extract_constants env).constituents ∧
          (extract_constants env).constituents.length <
            CONSTITUENTS.length) ∧
        (∀ a p, env c = .value a p →
          c ∈ (extract_constants env).constituents) := by
  intro env
  have hchar : (extract_constants env).constituents =
      CONSTITUENTS.filter (fun c => keepsConstituent (env c)) := by
    simp [extract_constants, extractLoop_eq]
  refine ⟨hchar, fun c hc => ⟨fun hskip => ?_, fun a p hval => ?_⟩⟩
  · have hfalse : keepsConstituent (env c) = false := by
      rcases hskip with h | h <;> rw [h] <;> rfl
    constructor
    · rw [hchar]
      intro hmem
      have hkeep := List.of_mem_filter hmem
      simp [hfalse] at hkeep
    · rw [hchar]
      exact length_filter_lt_of_mem_false _ _ c hc hfalse
  · rw [hchar]
    apply List.mem_filter_of_mem hc
    rw [hval]
    rfl

/-- Witness for C5 amended: j1 has a missing model file, everything else
resolves. -/
theorem c5_partial_extraction_amended_witness :
    "j1" ∉ (extract_constants (fun c => if c = "j1" then
      GridOutcome.fileMissing
      else GridOutcome.value (some 1) (some 0))).constituents ∧
    (extract_constants (fun c => if c = "j1" then GridOutcome.fileMissing
      else GridOutcome.value (some 1) (some 0))).constituents.length <
      CONSTITUENTS.length :=
  ((c5_partial_extraction_amended _).2 "j1" (by decide)).1
    (Or.inl (by decide))

/-- C6: in every record the extraction job produces, the amplitude and
phase lists have the same length as the constituents list, and the i-th
amplitude and phase are exactly the values extracted for the i-th named
constituent. -/
theorem c6_parallel_arrays_invariant :
    ∀ env : String → GridOutcome,
      (extract_constants env).amplitude.length =
        (extract_constants env).constituents.length ∧
      (extract_constants env).phase.length =
        (extract_constants env).constituents.length ∧
      ∀ i, i < (extract_constants env).constituents.length →
        (extract_constants env).amplitude.getD i 0 =
          outcomeAmp
            (env ((extract_constants env).constituents.getD i "")) ∧
        (extract_constants env).phase.getD i 0 =
          outcomePhase
            (env ((extract_constants env).constituents.getD i "")) := by
  intro env
  have hA : (extract_constants env).amplitude =
      ((extract_constants env).constituents).map
        (fun c => outcomeAmp (env c)) := by
    simp [extract_constants, extractLoop_eq]
  have hP : (extract_constants env).phase =
      ((extract_constants env).constituents).map
        (fun c => outcomePhase (env c)) := by
    simp [extract_constants, extractLoop_eq]
  refine ⟨by rw [hA]; simp, by rw [hP]; simp, fun i hi => ?_⟩
  exact ⟨by rw [hA, getD_map_of_lt _ _ i hi 0 ""],
    by rw [hP, getD_map_of_lt _ _ i hi 0 ""]⟩

/-- Witness for C6 with every constituent resolving, at index 0. -/
theorem c6_parallel_arrays_invariant_witness :
    (extract_constants (fun _ => GridOutcome.value (some 1)
      (some 2))).amplitude.getD 0 0 =
      outcomeAmp ((fun _ : String => GridOutcome.value (some 1) (some 2))
        ((extract_constants (fun _ => GridOutcome.value (some 1)
          (some 2))).constituents.getD 0 "")) ∧
    (extract_constants (fun _ => GridOutcome.value (some 1)
      (some 2))).phase.getD 0 0 =
      outcomePhase ((fun _ : String => GridOutcome.value (some 1) (some 2))
        ((extract_constants (fun _ => GridOutcome.value (some 1)
          (some 2))).constituents.getD 0 "")) :=
  (c6_parallel_arrays_invariant _).2.2 0 (by decide)

/-- C8 counterexample: the constants record is rewritten in place.
Starting from a record OLD and regenerating with the document written as
chunks NEW then REC, a failure after the first chunk leaves the file
holding NEW, which is neither the previous record OLD nor the complete
new document NEWREC; moreover the truncated state (empty file) is
observable right after the open. -/
theorem c8_atomic_replacement_counterexample :
    (extractSave (FS.mk (some "OLD") none) ["NEW", "REC"]
      (some 1)).target = some "NEW" ∧
    ("NEW" : String) ≠ "OLD" ∧
    ("NEW" : String) ≠ "NEWREC" ∧
    FS.mk (some "") none ∈
      extractSaveStates (FS.mk (some "OLD") none) ["NEW", "REC"] := by
  refine ⟨by decide, by decide, by decide, by decide⟩

/-- C8 amended: regeneration overwrites the record file in place: the
truncating open makes the empty file observable, a failure after k chunks
leaves exactly the first k chunks of the new document rather than the
prior record, and only a completed write leaves the full new document. -/
theorem c8_in_place_overwrite_amended :
    ∀ (fs : FS) (chunks : List String),
      (extractSave fs chunks none).target =
        some (String.join chunks) ∧
      (∀ k, (extractSave fs chunks (some k)).target =
        some (String.join (chunks.take k))) ∧
      FS.mk (some "") fs.temp ∈ extractSaveStates fs chunks := by
  intro fs chunks
  refine ⟨rfl, fun k => rfl, ?_⟩
  rw [extractSaveStates, List.mem_map]
  exact ⟨0, by simp [List.mem_range], by simp [String.join]⟩

/-- C10: every cache save writes the whole document to a temporary file
and renames it over the cache file: at every observable point the cache
file holds either the prior content or the complete new document, a
successful save installs the new document and leaves no temporary file,
and a failed write removes the temporary file and leaves the prior cache
file intact. -/
theorem c10_cache_save_atomic :
    ∀ (fs : FS) (chunks : List String),
      (∀ s, s ∈ cacheSaveStates fs chunks →
        s.target = fs.target ∨ s.target = some (String.join chunks)) ∧
      cacheSave fs chunks none =
        FS.mk (some (String.join chunks)) none ∧
      (∀ k, cacheSave fs chunks (some k) = FS.mk fs.target none) := by
  intro fs chunks
  refine ⟨?_, rfl, fun k => rfl⟩
  intro s hs
  rw [cacheSaveStates, List.mem_append, List.mem_map] at hs
  rcases hs with ⟨k, -, rfl⟩ | hs
  · left
    rfl
  · right
    rw [List.mem_singleton] at hs
    rw [hs]

/-- Witness for C10 at a concrete prior cache, document and observable
state (the state right after mkstemp). -/
theorem c10_cache_save_atomic_witness :
    (FS.mk (some "OLD") (some "")).target = some "OLD" ∨
    (FS.mk (some "OLD") (some "")).target =
      some (String.join ["NEW"]) :=
  (c10_cache_save_atomic (FS.mk (some "OLD") none) ["NEW"]).1
    (FS.mk (some "OLD") (some "")) (by decide)

end WeatherAPI
